import Mathlib

/-!
Verification of the generator-to-stream adapter library (`src/lib.rs`).

The library wraps a Rust generator (a resumable computation stepped by
`resume`, each step either `Yielded v` or `Complete r`) as a poll-based
stream.  Three adapter variants exist:

* `GenStream`      : `Yield = Poll<Y>`, `Return = ()`      (finite-normal)
* `GenPerpetualStream` : `Yield = Poll<Y>`, `Return = !`   (never ends)
* `GenTryStream`   : `Yield = Poll<T>`, `Return = Result<(), E>`
                     with a `finished : bool` latch        (may fail)

plus the `gen_await!` macro, a retry loop that polls a nested operation
with the ambient (thread-local) waker and yields `Poll::Pending` to the
enclosing generator until the operation is ready.

We embed the generator contract as a pure state-transition function and
translate each `poll_next` body directly.  The waker installation done by
`set_task_waker` is modelled by an instrumented ("traced") copy of each
`poll_next` that records the installation, resume and restore events.
-/

/-- Rust `core::task::Poll`. -/
inductive Poll (α : Type) where
  | Ready (a : α) : Poll α
  | Pending : Poll α
deriving DecidableEq, Repr

/-- `Poll::map`: applies `f` under `Ready`, keeps `Pending`. -/
def Poll.map (f : α → β) : Poll α → Poll β
  | .Ready a => .Ready (f a)
  | .Pending => .Pending

/-- Rust `core::ops::GeneratorState`. -/
inductive GeneratorState (Y R : Type) where
  | Yielded (y : Y) : GeneratorState Y R
  | Complete (r : R) : GeneratorState Y R
deriving DecidableEq, Repr

/-- Rust `Result<T, E>` (as used for the try-stream return type). -/
inductive RResult (T E : Type) where
  | Ok (t : T) : RResult T E
  | Err (e : E) : RResult T E
deriving DecidableEq, Repr

/-- A generator over state `σ`: `resume` maps the current state to a
step outcome (`Yielded`/`Complete`) and the successor state.  This is the
shallow embedding of Rust's `Generator` trait (`resume(&mut self)`). -/
def Gen (σ Y R : Type) : Type := σ → GeneratorState Y R × σ

/-- `GenStream<G>`: simple generator-based stream (owns the generator state). -/
structure GenStream (σ : Type) where
  inner : σ
deriving DecidableEq, Repr

/-- `GenPerpetualStream<G>`: stream based on a generator that never ends. -/
structure GenPerpetualStream (σ : Type) where
  inner : σ
deriving DecidableEq, Repr

/-- `GenTryStream<G>`: stream based on a generator that may fail; carries
the `finished` latch, initialized `false` by `From`. -/
structure GenTryStream (σ : Type) where
  inner : σ
  finished : Bool
deriving DecidableEq, Repr

/-- `GenTryStream::from(inner)`: wraps a generator with `finished = false`. -/
def GenTryStream.from_ (s : σ) : GenTryStream σ :=
  { inner := s, finished := false }

/-- `GenStream::poll_next`: resume once; `Yielded(v) => v.map(Some)`,
`Complete(_) => Poll::Ready(None)`. -/
def GenStream.poll_next (g : Gen σ (Poll Y) Unit) (s : GenStream σ) :
    Poll (Option Y) × GenStream σ :=
  match g s.inner with
  | (.Yielded v, s') => (v.map some, ⟨s'⟩)
  | (.Complete _, s') => (.Ready none, ⟨s'⟩)

/-- `GenPerpetualStream::poll_next`: resume once; the `Complete` branch is
`unreachable!` in the source; here the return type `Empty` (Rust `!`) is
uninhabited so the branch is eliminated by `Empty.elim`. -/
def GenPerpetualStream.poll_next (g : Gen σ (Poll Y) Empty) (s : GenPerpetualStream σ) :
    Poll (Option Y) × GenPerpetualStream σ :=
  match g s.inner with
  | (.Yielded v, s') => (v.map some, ⟨s'⟩)
  | (.Complete r, _) => r.elim

/-- `GenTryStream::poll_next`: if `finished` return `Ready(None)` at once;
otherwise resume once; `Yielded(v) => v.map(Ok).map(Some)`; `Complete(res)`
sets `finished = true` and emits `Ready(Some(Err e))` for `Err e`,
`Ready(None)` for `Ok(())`. -/
def GenTryStream.poll_next (g : Gen σ (Poll T) (RResult Unit E)) (s : GenTryStream σ) :
    Poll (Option (RResult T E)) × GenTryStream σ :=
  if s.finished then (.Ready none, s)
  else
    match g s.inner with
    | (.Yielded v, s') => ((v.map RResult.Ok).map some, ⟨s', s.finished⟩)
    | (.Complete res, s') =>
      match res with
      | .Ok _ => (.Ready none, ⟨s', true⟩)
      | .Err e => (.Ready (some (.Err e)), ⟨s', true⟩)

/-- Results of `n` successive `poll_next` pulls of a `GenStream`. -/
def GenStream.pollTrace (g : Gen σ (Poll Y) Unit) : GenStream σ → Nat → List (Poll (Option Y))
  | _, 0 => []
  | s, Nat.succ n =>
    let p := GenStream.poll_next g s
    p.1 :: GenStream.pollTrace g p.2 n

/-- Results of `n` successive `poll_next` pulls of a `GenPerpetualStream`. -/
def GenPerpetualStream.pollTrace (g : Gen σ (Poll Y) Empty) :
    GenPerpetualStream σ → Nat → List (Poll (Option Y))
  | _, 0 => []
  | s, Nat.succ n =>
    let p := GenPerpetualStream.poll_next g s
    p.1 :: GenPerpetualStream.pollTrace g p.2 n

/-- Results of `n` successive `poll_next` pulls of a `GenTryStream`. -/
def GenTryStream.pollTrace (g : Gen σ (Poll T) (RResult Unit E)) :
    GenTryStream σ → Nat → List (Poll (Option (RResult T E)))
  | _, 0 => []
  | s, Nat.succ n =>
    let p := GenTryStream.poll_next g s
    p.1 :: GenTryStream.pollTrace g p.2 n

/-- The step results of resuming the bare generator `n` times directly. -/
def stepTrace (g : Gen σ Y R) : σ → Nat → List (GeneratorState Y R)
  | _, 0 => []
  | s, Nat.succ n => (g s).1 :: stepTrace g (g s).2 n

/-- The step results of resuming the bare generator directly until it
completes (or `n` steps, whichever first): the natural notion of "the
sequence the computation would produce if stepped directly" for a finite
computation. -/
def stepTraceStop (g : Gen σ Y R) : σ → Nat → List (GeneratorState Y R)
  | _, 0 => []
  | s, Nat.succ n =>
    match g s with
    | (.Yielded y, s') => .Yielded y :: stepTraceStop g s' n
    | (.Complete r, _) => [.Complete r]

/-- Per-pull translation performed by `GenStream::poll_next`. -/
def translateGS : GeneratorState (Poll Y) Unit → Poll (Option Y)
  | .Yielded v => v.map some
  | .Complete _ => .Ready none

/-- Per-pull translation performed by `GenPerpetualStream::poll_next`. -/
def translateGP : GeneratorState (Poll Y) Empty → Poll (Option Y)
  | .Yielded v => v.map some
  | .Complete r => r.elim

/-- Per-pull translation performed by `GenTryStream::poll_next` on an
unfinished stream. -/
def translateTry : GeneratorState (Poll T) (RResult Unit E) → Poll (Option (RResult T E))
  | .Yielded v => (v.map RResult.Ok).map some
  | .Complete (.Ok _) => .Ready none
  | .Complete (.Err e) => .Ready (some (.Err e))

/-- Whether a step result is `Complete`. -/
def GeneratorState.isComplete : GeneratorState Y R → Bool
  | .Yielded _ => false
  | .Complete _ => true

/-- The items a pull trace emits (`Poll::Ready(Some(item))`), in order. -/
def readyItems (l : List (Poll (Option A))) : List A :=
  l.filterMap fun r =>
    match r with
    | .Ready (some a) => some a
    | _ => none

/-- The successful items a try-stream pull trace emits, in order. -/
def okItems (l : List (Poll (Option (RResult T E)))) : List T :=
  l.filterMap fun r =>
    match r with
    | .Ready (some (.Ok t)) => some t
    | _ => none

/-- Number of failure items (`Ready(Some(Err _))`) in a try-stream pull trace. -/
def errCount : List (Poll (Option (RResult T E))) → Nat
  | [] => 0
  | .Ready (some (.Err _)) :: l => errCount l + 1
  | _ :: l => errCount l

/-- The `ready` payloads among a generator's direct step results, in order. -/
def readyYields (l : List (GeneratorState (Poll A) R)) : List A :=
  l.filterMap fun r =>
    match r with
    | .Yielded (.Ready a) => some a
    | _ => none

/-!
Instrumented ("traced") model of the waker plumbing.  A waker is an opaque
identifier.  `set_task_waker w body` runs `body` with `w` installed as the
ambient task waker for the dynamic extent of `body` and restores the
previous (empty) ambient state afterwards; we record this as an `install`
event before `body`'s events and a `restore` event after them.  Resuming
the generator records a `resume` event.
-/

/-- Observable events of one pull: waker installation, generator resume,
waker restoration. -/
inductive WakerEvent where
  | install (w : Nat) : WakerEvent
  | resume : WakerEvent
  | restore : WakerEvent
deriving DecidableEq, Repr

/-- `std::future::set_task_waker(waker, f)`: the body's events happen
between the installation and the restoration of the ambient waker. -/
def set_task_waker (w : Nat) (body : α × List WakerEvent) : α × List WakerEvent :=
  (body.1, WakerEvent.install w :: body.2 ++ [WakerEvent.restore])

/-- Resuming the generator, recording the `resume` event. -/
def resumeTraced (g : Gen σ Y R) (s : σ) : (GeneratorState Y R × σ) × List WakerEvent :=
  (g s, [WakerEvent.resume])

/-- `GenStream::poll_next`, instrumented: `set_task_waker(waker, || match
self.inner().resume() ...)`. -/
def GenStream.poll_next_traced (g : Gen σ (Poll Y) Unit) (w : Nat) (s : GenStream σ) :
    (Poll (Option Y) × GenStream σ) × List WakerEvent :=
  set_task_waker w
    (let r := resumeTraced g s.inner
     ((match r.1 with
       | (.Yielded v, s') => (v.map some, (⟨s'⟩ : GenStream σ))
       | (.Complete _, s') => (.Ready none, ⟨s'⟩)),
      r.2))

/-- `GenPerpetualStream::poll_next`, instrumented. -/
def GenPerpetualStream.poll_next_traced (g : Gen σ (Poll Y) Empty) (w : Nat)
    (s : GenPerpetualStream σ) :
    (Poll (Option Y) × GenPerpetualStream σ) × List WakerEvent :=
  set_task_waker w
    (let r := resumeTraced g s.inner
     ((match r.1 with
       | (.Yielded v, s') => (v.map some, (⟨s'⟩ : GenPerpetualStream σ))
       | (.Complete e, _) => e.elim),
      r.2))

/-- `GenTryStream::poll_next`, instrumented: the `finished` short-circuit
returns before `set_task_waker` is ever invoked. -/
def GenTryStream.poll_next_traced (g : Gen σ (Poll T) (RResult Unit E)) (w : Nat)
    (s : GenTryStream σ) :
    (Poll (Option (RResult T E)) × GenTryStream σ) × List WakerEvent :=
  if s.finished then ((.Ready none, s), [])
  else
    set_task_waker w
      (let r := resumeTraced g s.inner
       ((match r.1 with
         | (.Yielded v, s') => ((v.map RResult.Ok).map some, (⟨s', s.finished⟩ : GenTryStream σ))
         | (.Complete res, s') =>
           match res with
           | .Ok _ => (.Ready none, ⟨s', true⟩)
           | .Err e => (.Ready (some (.Err e)), ⟨s', true⟩)),
        r.2))

/-- Events accumulated over `n` successive instrumented pulls of a
`GenTryStream`. -/
def GenTryStream.pollTraceEvents (g : Gen σ (Poll T) (RResult Unit E)) (w : Nat) :
    GenTryStream σ → Nat → List WakerEvent
  | _, 0 => []
  | s, Nat.succ n =>
    let p := GenTryStream.poll_next_traced g w s
    p.2 ++ GenTryStream.pollTraceEvents g w p.1.2 n

/-- The `gen_await!` macro body, as a generator of its own.  The nested
operation is modelled by its poll behavior `op : Nat → Poll α`, giving the
outcome of its `(i+1)`-th poll (`poll_with_tls_waker`).  State is the
number of polls performed so far.  Each resume polls `op` once: `Pending`
yields `Poll::Pending` to the enclosing generator and retries on the next
resume; `Ready x` breaks the loop, producing `x`. -/
def gen_await (op : Nat → Poll α) : Gen Nat (Poll Y) α := fun i =>
  match op i with
  | .Ready x => (.Complete x, i)
  | .Pending => (.Yielded .Pending, i + 1)

/-!  Concrete generators used to witness the conditional theorems. -/

/-- Example finite generator: a ready item, a pending, completion, and
(if resumed past completion) further ready items. -/
def gExFin : Gen Nat (Poll Nat) Unit := fun s =>
  match s with
  | 0 => (.Yielded (.Ready 10), 1)
  | 1 => (.Yielded .Pending, 2)
  | 2 => (.Complete (), 3)
  | n + 3 => (.Yielded (.Ready 99), n + 4)

/-- Example perpetual generator: alternates ready items and pendings. -/
def gExPerp : Gen Nat (Poll Nat) Empty := fun s =>
  (if s % 2 = 0 then .Yielded (.Ready s) else .Yielded .Pending, s + 1)

/-- Example failing generator: one ready item, then `Err 42`; if (counter
to the latch) it were resumed past completion it would yield again. -/
def gExErr : Gen Nat (Poll Nat) (RResult Unit Nat) := fun s =>
  match s with
  | 0 => (.Yielded (.Ready 5), 1)
  | 1 => (.Complete (.Err 42), 2)
  | n + 2 => (.Yielded (.Ready 7), n + 3)

/-- Example succeeding generator: one pending, then `Ok(())`. -/
def gExOk : Gen Nat (Poll Nat) (RResult Unit Nat) := fun s =>
  match s with
  | 0 => (.Yielded .Pending, 1)
  | 1 => (.Complete (.Ok ()), 2)
  | n + 2 => (.Yielded (.Ready 7), n + 3)

/-- Example nested operation for `gen_await`: pending on the first two
polls, ready with `7` from the third on. -/
def opEx : Nat → Poll Nat := fun i => if i < 2 then .Pending else .Ready 7

/-!  Helper lemmas. -/

/-- One `GenStream` pull is the `translateGS` image of one direct step. -/
theorem GenStream.poll_next_eq_fin (g : Gen σ (Poll Y) Unit) (s : GenStream σ) :
    GenStream.poll_next g s = (translateGS (g s.inner).1, ⟨(g s.inner).2⟩) := by
  unfold GenStream.poll_next
  rcases h : g s.inner with ⟨gs, s'⟩
  cases gs <;> simp [h, translateGS]

/-- One `GenPerpetualStream` pull is the `translateGP` image of one direct step. -/
theorem GenPerpetualStream.poll_next_eq_perp (g : Gen σ (Poll Y) Empty) (s : GenPerpetualStream σ) :
    GenPerpetualStream.poll_next g s = (translateGP (g s.inner).1, ⟨(g s.inner).2⟩) := by
  unfold GenPerpetualStream.poll_next
  rcases h : g s.inner with ⟨gs, s'⟩
  cases gs with
  | Yielded v => simp [h, translateGP]
  | Complete r => exact r.elim

/-- One unfinished `GenTryStream` pull is the `translateTry` image of one
direct step; the latch is set exactly when the step completed. -/
theorem GenTryStream.poll_next_unfinished (g : Gen σ (Poll T) (RResult Unit E)) (s : σ) :
    GenTryStream.poll_next g ⟨s, false⟩ =
      (translateTry (g s).1, ⟨(g s).2, (g s).1.isComplete⟩) := by
  unfold GenTryStream.poll_next
  rcases h : g s with ⟨gs, s'⟩
  cases gs with
  | Yielded v => simp [h, translateTry, GeneratorState.isComplete]
  | Complete res => cases res <;> simp [h, translateTry, GeneratorState.isComplete]

/-- `GenStream` refines direct stepping pull-for-pull. -/
theorem GenStream.pollTrace_eq_fin (g : Gen σ (Poll Y) Unit) (s : σ) (n : Nat) :
    GenStream.pollTrace g ⟨s⟩ n = (stepTrace g s n).map translateGS := by
  induction n generalizing s with
  | zero => rfl
  | succ n ih => simp [GenStream.pollTrace, GenStream.poll_next_eq_fin, stepTrace, ih]

/-- `GenPerpetualStream` refines direct stepping pull-for-pull. -/
theorem GenPerpetualStream.pollTrace_eq_perp (g : Gen σ (Poll Y) Empty) (s : σ) (n : Nat) :
    GenPerpetualStream.pollTrace g ⟨s⟩ n = (stepTrace g s n).map translateGP := by
  induction n generalizing s with
  | zero => rfl
  | succ n ih => simp [GenPerpetualStream.pollTrace, GenPerpetualStream.poll_next_eq_perp, stepTrace, ih]

/-- A finished `GenTryStream` answers `Ready none` to every pull. -/
theorem GenTryStream.pollTrace_finished (g : Gen σ (Poll T) (RResult Unit E)) (s : σ) (n : Nat) :
    GenTryStream.pollTrace g ⟨s, true⟩ n = List.replicate n (.Ready none) := by
  induction n with
  | zero => rfl
  | succ n ih =>
    simp [GenTryStream.pollTrace, GenTryStream.poll_next, ih, List.replicate_succ]

/-- `GenTryStream` refines direct stepping (stopping at completion), with
post-completion pulls answering `Ready none`. -/
theorem GenTryStream.pollTrace_eq_try (g : Gen σ (Poll T) (RResult Unit E)) (s : σ) (n : Nat) :
    GenTryStream.pollTrace g ⟨s, false⟩ n =
      (stepTraceStop g s n).map translateTry ++
        List.replicate (n - (stepTraceStop g s n).length) (.Ready none) := by
  induction n generalizing s with
  | zero => rfl
  | succ n ih =>
    rcases h : g s with ⟨gs, s'⟩
    cases gs with
    | Yielded v =>
      simp [GenTryStream.pollTrace, GenTryStream.poll_next_unfinished, stepTraceStop, h,
        GeneratorState.isComplete, ih]
    | Complete res =>
      cases res <;>
        simp [GenTryStream.pollTrace, GenTryStream.poll_next_unfinished, stepTraceStop, h,
          GeneratorState.isComplete, translateTry, GenTryStream.pollTrace_finished,
          List.replicate_succ]

/-- Post-completion pulls carry no failure item. -/
theorem errCount_replicate_none (n : Nat) :
    errCount (T := T) (E := E) (List.replicate n (.Ready none)) = 0 := by
  induction n with
  | zero => rfl
  | succ n ih => simpa [List.replicate_succ, errCount] using ih

/-- At most one failure item ever appears in a try-stream pull trace
(zero once the latch is set). -/
theorem errCount_pollTrace_le (g : Gen σ (Poll T) (RResult Unit E))
    (st : GenTryStream σ) (n : Nat) :
    errCount (GenTryStream.pollTrace g st n) ≤ (if st.finished then 0 else 1) := by
  induction n generalizing st with
  | zero => simp [GenTryStream.pollTrace, errCount]
  | succ n ih =>
    rcases st with ⟨s, b⟩
    cases b with
    | true =>
      rw [GenTryStream.pollTrace_finished, errCount_replicate_none]
      simp
    | false =>
      rcases h : g s with ⟨gs, s'⟩
      cases gs with
      | Yielded v =>
        have htail := ih ⟨s', false⟩
        cases v <;>
          simpa [GenTryStream.pollTrace, GenTryStream.poll_next_unfinished, h,
            GeneratorState.isComplete, translateTry, Poll.map, errCount] using htail
      | Complete res =>
        have htail : errCount (GenTryStream.pollTrace g ⟨s', true⟩ n) = 0 := by
          rw [GenTryStream.pollTrace_finished, errCount_replicate_none]
        cases res <;>
          simp [GenTryStream.pollTrace, GenTryStream.poll_next_unfinished, h,
            GeneratorState.isComplete, translateTry, errCount, htail]

/-- Items of a translated `GenStream` trace are exactly the ready yields. -/
theorem readyItems_map_translateGS (l : List (GeneratorState (Poll Y) Unit)) :
    readyItems (l.map translateGS) = readyYields l := by
  induction l with
  | nil => rfl
  | cons a l ih =>
    cases a with
    | Yielded v => cases v <;> simp [readyItems, readyYields, translateGS, Poll.map] at ih ⊢ <;>
        exact ih
    | Complete r => simpa [readyItems, readyYields, translateGS] using ih

/-- Items of a translated `GenPerpetualStream` trace are exactly the ready yields. -/
theorem readyItems_map_translateGP (l : List (GeneratorState (Poll Y) Empty)) :
    readyItems (l.map translateGP) = readyYields l := by
  induction l with
  | nil => rfl
  | cons a l ih =>
    cases a with
    | Yielded v => cases v <;> simp [readyItems, readyYields, translateGP, Poll.map] at ih ⊢ <;>
        exact ih
    | Complete r => exact r.elim

/-- Successful items of a translated try-stream trace are exactly the ready yields. -/
theorem okItems_map_translateTry (l : List (GeneratorState (Poll T) (RResult Unit E))) :
    okItems (l.map translateTry) = readyYields l := by
  induction l with
  | nil => rfl
  | cons a l ih =>
    cases a with
    | Yielded v => cases v <;> simp [okItems, readyYields, translateTry, Poll.map] at ih ⊢ <;>
        exact ih
    | Complete res => cases res <;> simpa [okItems, readyYields, translateTry] using ih

/-- Post-completion `Ready none` pulls contribute no successful item. -/
theorem okItems_append_replicate_none (l : List (Poll (Option (RResult T E)))) (n : Nat) :
    okItems (l ++ List.replicate n (.Ready none)) = okItems l := by
  simp [okItems, List.filterMap_append]

/-- Every `GenStream` pull wraps exactly one resume in one waker install/restore. -/
theorem GenStream.poll_next_traced_events_fin (g : Gen σ (Poll Y) Unit) (w : Nat)
    (s : GenStream σ) :
    (GenStream.poll_next_traced g w s).2 =
      [WakerEvent.install w, WakerEvent.resume, WakerEvent.restore] := rfl

/-- Every `GenPerpetualStream` pull wraps exactly one resume in one waker
install/restore. -/
theorem GenPerpetualStream.poll_next_traced_events_perp (g : Gen σ (Poll Y) Empty) (w : Nat)
    (s : GenPerpetualStream σ) :
    (GenPerpetualStream.poll_next_traced g w s).2 =
      [WakerEvent.install w, WakerEvent.resume, WakerEvent.restore] := rfl

/-- A finished `GenTryStream` pull returns at once: no waker install, no resume. -/
theorem GenTryStream.poll_next_traced_finished (g : Gen σ (Poll T) (RResult Unit E))
    (w : Nat) (s : σ) :
    GenTryStream.poll_next_traced g w ⟨s, true⟩ = ((.Ready none, ⟨s, true⟩), []) := rfl

/-- A `GenTryStream` pull resumes exactly once inside the waker scope unless
the latch short-circuits, in which case nothing at all happens. -/
theorem GenTryStream.poll_next_traced_events_try (g : Gen σ (Poll T) (RResult Unit E))
    (w : Nat) (s : GenTryStream σ) :
    (GenTryStream.poll_next_traced g w s).2 =
      (if s.finished then []
       else [WakerEvent.install w, WakerEvent.resume, WakerEvent.restore]) := by
  rcases s with ⟨s, b⟩
  cases b <;> rfl

/-- Once finished, any number of further pulls produces no event at all. -/
theorem GenTryStream.pollTraceEvents_finished (g : Gen σ (Poll T) (RResult Unit E))
    (w : Nat) (s : σ) (n : Nat) :
    GenTryStream.pollTraceEvents g w ⟨s, true⟩ n = [] := by
  induction n with
  | zero => rfl
  | succ n ih =>
    simp [GenTryStream.pollTraceEvents, GenTryStream.poll_next_traced_finished, ih]

/-- The `gen_await` loop, started at poll count `s`: an operation pending
for the next `K` polls and then ready yields `Pending` `K` times and then
completes with the ready value. -/
theorem gen_await_loop (op : Nat → Poll α) (K : Nat) (x : α) :
    ∀ (s n : Nat), (∀ i, i < K → op (s + i) = .Pending) → op (s + K) = .Ready x →
      K + 1 ≤ n →
      stepTraceStop (gen_await (Y := Y) op) s n =
        List.replicate K (.Yielded .Pending) ++ [.Complete x] := by
  induction K with
  | zero =>
    intro s n _ hr hn
    obtain ⟨m, rfl⟩ : ∃ m, n = m + 1 := ⟨n - 1, by omega⟩
    simp only [Nat.add_zero] at hr
    simp [stepTraceStop, gen_await, hr]
  | succ K ih =>
    intro s n hp hr hn
    obtain ⟨m, rfl⟩ : ∃ m, n = m + 1 := ⟨n - 1, by omega⟩
    have h0 : op s = .Pending := by simpa using hp 0 (Nat.succ_pos K)
    have htail := ih (s + 1) m
      (fun i hi => by
        have := hp (i + 1) (by omega)
        simpa [Nat.add_assoc, Nat.add_comm 1 i] using this)
      (by
        have : s + (K + 1) = s + 1 + K := by omega
        rwa [this] at hr)
      (by omega)
    simp [stepTraceStop, gen_await, h0, htail, List.replicate_succ]

/-!  Claim theorems. -/

/-- Claim C1: for every wrapped generator and every finite sequence of pulls,
each adapter variant turns the generator's own step sequence into the pull
sequence pointwise: every ready yield is emitted as one ready item in the
same order, every suspended yield surfaces as exactly one `Pending` pull,
completion becomes the end-of-stream signal, and (for the try variant) any
pull after completion answers `Ready none`; consequently the items emitted
are exactly the generator's ready yields, in order — nothing reordered,
dropped, duplicated, or buffered. -/
theorem c1_stream_refines_generator :
    ∀ (σ Y T E : Type) (g : Gen σ (Poll Y) Unit) (gp : Gen σ (Poll Y) Empty)
      (gt : Gen σ (Poll T) (RResult Unit E)) (s : σ) (n : Nat),
      (GenStream.pollTrace g ⟨s⟩ n = (stepTrace g s n).map translateGS ∧
        readyItems (GenStream.pollTrace g ⟨s⟩ n) = readyYields (stepTrace g s n)) ∧
      (GenPerpetualStream.pollTrace gp ⟨s⟩ n = (stepTrace gp s n).map translateGP ∧
        readyItems (GenPerpetualStream.pollTrace gp ⟨s⟩ n) = readyYields (stepTrace gp s n)) ∧
      (GenTryStream.pollTrace gt ⟨s, false⟩ n =
          (stepTraceStop gt s n).map translateTry ++
            List.replicate (n - (stepTraceStop gt s n).length) (.Ready none) ∧
        okItems (GenTryStream.pollTrace gt ⟨s, false⟩ n) =
          readyYields (stepTraceStop gt s n)) := by
  intro σ Y T E g gp gt s n
  refine ⟨⟨GenStream.pollTrace_eq_fin g s n, ?_⟩, ⟨GenPerpetualStream.pollTrace_eq_perp gp s n, ?_⟩,
    ⟨GenTryStream.pollTrace_eq_try gt s n, ?_⟩⟩
  · rw [GenStream.pollTrace_eq_fin, readyItems_map_translateGS]
  · rw [GenPerpetualStream.pollTrace_eq_perp, readyItems_map_translateGP]
  · rw [GenTryStream.pollTrace_eq_try, okItems_append_replicate_none, okItems_map_translateTry]

/-- Claim C2: once the `finished` field of a `GenTryStream` is `true`, every
further pull returns `Poll::Ready(None)` with the state unchanged, and over
any number of further pulls no event occurs at all — in particular the
wrapped generator's resume is never invoked again. -/
theorem c2_try_finished_latch :
    ∀ (σ T E : Type) (g : Gen σ (Poll T) (RResult Unit E)) (w : Nat) (s : σ) (n : Nat),
      GenTryStream.poll_next g ⟨s, true⟩ = (.Ready none, ⟨s, true⟩) ∧
      GenTryStream.pollTrace g ⟨s, true⟩ n = List.replicate n (.Ready none) ∧
      GenTryStream.pollTraceEvents g w ⟨s, true⟩ n = [] := by
  intro σ T E g w s n
  exact ⟨rfl, GenTryStream.pollTrace_finished g s n,
    GenTryStream.pollTraceEvents_finished g w s n⟩

/-- Claim C3: when the generator completes with `Err e`, that pull sets
`finished` and returns exactly one failure item `Ready(Some(Err e))`; every
pull thereafter returns `Ready(None)`, and in any pull sequence of a fresh
try-stream at most one failure item is ever produced. -/
theorem c3_try_err_one_failure_item :
    ∀ (σ T E : Type) (g : Gen σ (Poll T) (RResult Unit E)) (s s' : σ) (e : E),
      g s = (.Complete (.Err e), s') →
      GenTryStream.poll_next g ⟨s, false⟩ = (.Ready (some (.Err e)), ⟨s', true⟩) ∧
      (∀ n : Nat, GenTryStream.pollTrace g ⟨s', true⟩ n = List.replicate n (.Ready none)) ∧
      (∀ (s0 : σ) (m : Nat), errCount (GenTryStream.pollTrace g ⟨s0, false⟩ m) ≤ 1) := by
  intro σ T E g s s' e h
  refine ⟨?_, fun n => GenTryStream.pollTrace_finished g s' n, fun s0 m => ?_⟩
  · rw [GenTryStream.poll_next_unfinished, h]
    rfl
  · simpa using errCount_pollTrace_le g ⟨s0, false⟩ m

/-- Claim C3 witness: the concrete failing generator emits `Err 42` once and
then only `Ready none`, and a full run carries at most one failure item. -/
theorem c3_witness :
    GenTryStream.poll_next gExErr ⟨1, false⟩ = (.Ready (some (.Err 42)), ⟨2, true⟩) ∧
    GenTryStream.pollTrace gExErr ⟨2, true⟩ 5 = List.replicate 5 (.Ready none) ∧
    errCount (GenTryStream.pollTrace gExErr ⟨0, false⟩ 7) ≤ 1 :=
  ⟨(c3_try_err_one_failure_item Nat Nat Nat gExErr 1 2 42 rfl).1,
   (c3_try_err_one_failure_item Nat Nat Nat gExErr 1 2 42 rfl).2.1 5,
   (c3_try_err_one_failure_item Nat Nat Nat gExErr 1 2 42 rfl).2.2 0 7⟩

/-- Claim C4: a `GenPerpetualStream` never reports end-of-stream: every pull
result over any number of pulls is either a ready item or `Pending`; and
with the uninhabited return type (`!`), a step result can only be `Yielded`,
so the `Complete` (`unreachable!`) branch can never be taken. -/
theorem c4_perpetual_never_ends :
    ∀ (σ Y : Type) (gp : Gen σ (Poll Y) Empty) (s : GenPerpetualStream σ) (n : Nat),
      (∀ r ∈ GenPerpetualStream.pollTrace gp s n,
        (∃ y, r = .Ready (some y)) ∨ r = .Pending) ∧
      (∀ st : GeneratorState (Poll Y) Empty, ∃ v, st = .Yielded v) := by
  intro σ Y gp s n
  constructor
  · rcases s with ⟨s⟩
    rw [GenPerpetualStream.pollTrace_eq_perp]
    intro r hr
    rcases List.mem_map.mp hr with ⟨a, _, rfl⟩
    cases a with
    | Yielded v =>
      cases v with
      | Ready y => exact Or.inl ⟨y, rfl⟩
      | Pending => exact Or.inr rfl
    | Complete r0 => exact r0.elim
  · intro st
    cases st with
    | Yielded v => exact ⟨v, rfl⟩
    | Complete r0 => exact r0.elim

/-- Claim C4 witness: the first pull of the concrete perpetual generator is
a ready item, hence not end-of-stream. -/
theorem c4_witness :
    (∃ y, (Poll.Ready (some 0) : Poll (Option Nat)) = .Ready (some y)) ∨
      (Poll.Ready (some 0) : Poll (Option Nat)) = .Pending :=
  (c4_perpetual_never_ends Nat Nat gExPerp ⟨0⟩ 1).1 (.Ready (some 0)) (by decide)

/-- Claim C5: if the nested operation reports `Pending` exactly `K` times
before reporting `Ready x`, the `gen_await` loop yields `Poll::Pending`
from the enclosing generator exactly `K` times and then produces `x` as its
result (for every `K`, including `K = 0` with no suspension yield). -/
theorem c5_gen_await_suspension_roundtrip :
    ∀ (α Z : Type) (op : Nat → Poll α) (K : Nat) (x : α) (n : Nat),
      (∀ i, i < K → op i = .Pending) → op K = .Ready x → K + 1 ≤ n →
      stepTraceStop (gen_await (Y := Z) op) 0 n =
        List.replicate K (.Yielded .Pending) ++ [.Complete x] := by
  intro α Z op K x n hp hr hn
  exact gen_await_loop op K x 0 n (fun i hi => by simpa using hp i hi) (by simpa using hr) hn

/-- Claim C5 witness: the concrete operation pending twice then ready with 7
makes `gen_await` yield `Pending` twice and complete with 7. -/
theorem c5_witness :
    stepTraceStop (gen_await (Y := Unit) opEx) 0 3 =
      List.replicate 2 (.Yielded .Pending) ++ [.Complete 7] :=
  c5_gen_await_suspension_roundtrip Nat Unit opEx 2 7 3 (by decide) (by decide) (by decide)

/-- Claim C6: a single `GenStream` pull maps the generator's step result as:
`Yielded(Ready item)` to `Ready(Some item)`, `Yielded(Pending)` to `Pending`,
and `Complete(())` to `Ready(None)`; the result carries no error channel, so
the adapter surfaces no error of its own. -/
theorem c6_genstream_single_pull :
    ∀ (σ Y : Type) (g : Gen σ (Poll Y) Unit) (s : GenStream σ),
      (∀ (y : Y) (s' : σ), g s.inner = (.Yielded (.Ready y), s') →
        GenStream.poll_next g s = (.Ready (some y), ⟨s'⟩)) ∧
      (∀ s' : σ, g s.inner = (.Yielded .Pending, s') →
        GenStream.poll_next g s = (.Pending, ⟨s'⟩)) ∧
      (∀ s' : σ, g s.inner = (.Complete (), s') →
        GenStream.poll_next g s = (.Ready none, ⟨s'⟩)) := by
  intro σ Y g s
  refine ⟨fun y s' h => ?_, fun s' h => ?_, fun s' h => ?_⟩ <;> rw [GenStream.poll_next_eq_fin, h] <;>
    rfl

/-- Claim C6 witness: the three mappings at the concrete finite generator. -/
theorem c6_witness :
    GenStream.poll_next gExFin ⟨0⟩ = (.Ready (some 10), ⟨1⟩) ∧
    GenStream.poll_next gExFin ⟨1⟩ = (.Pending, ⟨2⟩) ∧
    GenStream.poll_next gExFin ⟨2⟩ = (.Ready none, ⟨3⟩) :=
  ⟨(c6_genstream_single_pull Nat Nat gExFin ⟨0⟩).1 10 1 rfl,
   (c6_genstream_single_pull Nat Nat gExFin ⟨1⟩).2.1 2 rfl,
   (c6_genstream_single_pull Nat Nat gExFin ⟨2⟩).2.2 3 rfl⟩

/-- Claim C7: when the generator completes with `Ok(())`, that pull sets
`finished` and returns `Ready(None)` without emitting an item, and
afterwards the generator is never resumed again (no events over any number
of further pulls), so the terminal state is entered at most once. -/
theorem c7_try_ok_completion :
    ∀ (σ T E : Type) (g : Gen σ (Poll T) (RResult Unit E)) (w : Nat) (s s' : σ),
      g s = (.Complete (.Ok ()), s') →
      GenTryStream.poll_next g ⟨s, false⟩ = (.Ready none, ⟨s', true⟩) ∧
      (∀ n : Nat,
        GenTryStream.pollTrace g ⟨s', true⟩ n = List.replicate n (.Ready none) ∧
        GenTryStream.pollTraceEvents g w ⟨s', true⟩ n = []) := by
  intro σ T E g w s s' h
  refine ⟨?_, fun n => ⟨GenTryStream.pollTrace_finished g s' n,
    GenTryStream.pollTraceEvents_finished g w s' n⟩⟩
  rw [GenTryStream.poll_next_unfinished, h]
  rfl

/-- Claim C7 witness: the concrete succeeding generator completes silently
and terminally. -/
theorem c7_witness :
    GenTryStream.poll_next gExOk ⟨1, false⟩ = (.Ready none, ⟨2, true⟩) ∧
    GenTryStream.pollTrace gExOk ⟨2, true⟩ 3 = List.replicate 3 (.Ready none) :=
  ⟨(c7_try_ok_completion Nat Nat Nat gExOk 0 1 2 rfl).1,
   ((c7_try_ok_completion Nat Nat Nat gExOk 0 1 2 rfl).2 3).1⟩

/-- Claim C8: on every pull of every variant the event sequence is exactly
one waker installation, then exactly one generator resume, then the waker
restoration — so the resume happens at most once per pull (exactly once
unless the try-stream latch short-circuits, in which case nothing happens)
and entirely within the dynamic extent of `set_task_waker`. -/
theorem c8_waker_scope_per_pull :
    ∀ (σ Y T E : Type) (g : Gen σ (Poll Y) Unit) (gp : Gen σ (Poll Y) Empty)
      (gt : Gen σ (Poll T) (RResult Unit E)) (w : Nat)
      (s1 : GenStream σ) (s2 : GenPerpetualStream σ) (s3 : GenTryStream σ),
      (GenStream.poll_next_traced g w s1).2 =
        [WakerEvent.install w, WakerEvent.resume, WakerEvent.restore] ∧
      (GenPerpetualStream.poll_next_traced gp w s2).2 =
        [WakerEvent.install w, WakerEvent.resume, WakerEvent.restore] ∧
      (GenTryStream.poll_next_traced gt w s3).2 =
        (if s3.finished then []
         else [WakerEvent.install w, WakerEvent.resume, WakerEvent.restore]) := by
  intro σ Y T E g gp gt w s1 s2 s3
  exact ⟨GenStream.poll_next_traced_events_fin g w s1,
    GenPerpetualStream.poll_next_traced_events_perp gp w s2,
    GenTryStream.poll_next_traced_events_try gt w s3⟩

/-- Claim C9: `GenStream` keeps no latch: a pull on which the generator
completes returns `Ready(None)`, yet the next pull resumes the generator
again (one resume event inside the waker scope) and its outcome is whatever
the body's next step produces. -/
theorem c9_genstream_no_latch :
    ∀ (σ Y : Type) (g : Gen σ (Poll Y) Unit) (w : Nat) (s s' : σ),
      g s = (.Complete (), s') →
      GenStream.poll_next g ⟨s⟩ = (.Ready none, ⟨s'⟩) ∧
      (GenStream.poll_next_traced g w ⟨s'⟩).2 =
        [WakerEvent.install w, WakerEvent.resume, WakerEvent.restore] ∧
      GenStream.poll_next g ⟨s'⟩ = (translateGS (g s').1, ⟨(g s').2⟩) := by
  intro σ Y g w s s' h
  refine ⟨?_, GenStream.poll_next_traced_events_fin g w ⟨s'⟩, GenStream.poll_next_eq_fin g ⟨s'⟩⟩
  rw [GenStream.poll_next_eq_fin, h]
  rfl

/-- Claim C9 witness: the concrete finite generator completes on the third
pull and, pulled once more, is resumed again and yields another item. -/
theorem c9_witness :
    GenStream.poll_next gExFin ⟨2⟩ = (.Ready none, ⟨3⟩) ∧
    GenStream.poll_next gExFin ⟨3⟩ = (.Ready (some 99), ⟨4⟩) :=
  ⟨(c9_genstream_no_latch Nat Nat gExFin 0 2 3 rfl).1,
   (c9_genstream_no_latch Nat Nat gExFin 0 2 3 rfl).2.2⟩

/-- Claim C10: a pull on a finished `GenTryStream` returns `Ready(None)`
with no event at all (so `set_task_waker` is never invoked) and leaves both
`finished` and the generator state unchanged; and on a pull where the
generator yields, `finished` remains `false`. -/
theorem c10_try_frame_effects :
    ∀ (σ T E : Type) (g : Gen σ (Poll T) (RResult Unit E)) (w : Nat) (s : σ),
      GenTryStream.poll_next_traced g w ⟨s, true⟩ = ((.Ready none, ⟨s, true⟩), []) ∧
      (∀ (v : Poll T) (s' : σ), g s = (.Yielded v, s') →
        GenTryStream.poll_next g ⟨s, false⟩ =
          ((v.map RResult.Ok).map some, ⟨s', false⟩)) := by
  intro σ T E g w s
  refine ⟨GenTryStream.poll_next_traced_finished g w s, fun v s' h => ?_⟩
  rw [GenTryStream.poll_next_unfinished, h]
  rfl

/-- Claim C10 witness: a yielding pull of the concrete failing generator
leaves `finished` at `false`. -/
theorem c10_witness :
    GenTryStream.poll_next gExErr ⟨0, false⟩ = (.Ready (some (.Ok 5)), ⟨1, false⟩) :=
  (c10_try_frame_effects Nat Nat Nat gExErr 0 0).2 (.Ready 5) 1 rfl
